import Mathlib

/-!
Verification of the virtwold daemon (Wake-on-LAN for libvirt VMs).

The development shallowly embeds the two decision-making functions of
`virtwold.go` — `GrabMACAddr` (WOL magic-packet validation and MAC
extraction) and `WakeVirtualMachine` (domain resolution and wake dispatch) —
together with the per-packet processing loop of `main`.  Bytes are modelled
as `Fin 256`, the captured application-layer payload as `Option (List Byte)`
(`none` models a packet without an application layer), and the libvirt
control plane as an explicit snapshot value; fallible libvirt calls are
modelled by boolean success flags recorded in that snapshot.
-/

namespace Virtwold

abbrev Byte := Fin 256

/-- WOL packet structure constants from `virtwold.go`:
6 bytes of 0xFF, MAC address is 6 bytes, MAC repeated 16 times. -/
def wolHeaderSize : Nat := 6

def wolMACSize : Nat := 6

def wolMACRepeats : Nat := 16

/-- `wolMinSize = wolHeaderSize + (wolMACSize * wolMACRepeats)` — 102 bytes minimum. -/
def wolMinSize : Nat := wolHeaderSize + wolMACSize * wolMACRepeats

/-- One lowercase hex digit, as produced by Go `%x` formatting. -/
def hexDigit (n : Nat) : Char :=
  if n < 10 then Char.ofNat (48 + n) else Char.ofNat (87 + n)

/-- Two-digit lowercase hex of one byte, as produced by Go `%02x` on a byte value. -/
def byteHex (b : Byte) : String :=
  String.mk [hexDigit (b.val / 16), hexDigit (b.val % 16)]

/-- `fmt.Sprintf "%02x:%02x:%02x:%02x:%02x:%02x"` over six bytes. -/
def formatMAC (b0 b1 b2 b3 b4 b5 : Byte) : String :=
  byteHex b0 ++ ":" ++ byteHex b1 ++ ":" ++ byteHex b2 ++ ":" ++
    byteHex b3 ++ ":" ++ byteHex b4 ++ ":" ++ byteHex b5

/-- The error cases of `GrabMACAddr`:
`noPayload` — "no application layer found in packet";
`tooShort got need` — "payload too short: got %d bytes, need at least %d";
`invalidHeader i b` — "invalid WOL header: byte %d is 0x%02x, expected 0xFF". -/
inductive WolError where
  | noPayload
  | tooShort (got need : Nat)
  | invalidHeader (idx : Nat) (b : Byte)
deriving DecidableEq, Repr

/-- Embedding of `GrabMACAddr` (virtwold.go:79-104).  The argument is the
application layer of the captured packet: `none` when `packet.ApplicationLayer()`
is nil, otherwise the payload bytes.  The header-validation `for` loop is the
search for the first index `i < wolHeaderSize` with `payload[i] != 0xFF`;
on success the MAC is read from the first repetition at offset `wolHeaderSize`. -/
def GrabMACAddr (app : Option (List Byte)) : Except WolError String :=
  match app with
  | none => Except.error WolError.noPayload
  | some payload =>
    if payload.length < wolMinSize then
      Except.error (WolError.tooShort payload.length wolMinSize)
    else
      match (List.range wolHeaderSize).find? (fun i => payload.getD i 0 != 255) with
      | some i => Except.error (WolError.invalidHeader i (payload.getD i 0))
      | none =>
        let macOffset := wolHeaderSize
        Except.ok (formatMAC (payload.getD macOffset 0) (payload.getD (macOffset + 1) 0)
          (payload.getD (macOffset + 2) 0) (payload.getD (macOffset + 3) 0)
          (payload.getD (macOffset + 4) 0) (payload.getD (macOffset + 5) 0))

/-- The byte indices `GrabMACAddr` dereferences in the payload, mirroring its
control flow: nothing before the length guard passes; the header loop reads
indices `0..i` up to the first non-0xFF byte `i` (inclusive); when the header
is valid it reads indices `0..5` and then the first MAC repetition `6..11`. -/
def grabReads (app : Option (List Byte)) : List Nat :=
  match app with
  | none => []
  | some payload =>
    if payload.length < wolMinSize then []
    else
      match (List.range wolHeaderSize).find? (fun i => payload.getD i 0 != 255) with
      | some i => List.range (i + 1)
      | none => List.range wolHeaderSize ++
          [wolHeaderSize, wolHeaderSize + 1, wolHeaderSize + 2,
           wolHeaderSize + 3, wolHeaderSize + 4, wolHeaderSize + 5]

/-- Discriminator: is this result the `invalidHeader` error? -/
def isInvalidHeaderError : Except WolError String → Bool
  | Except.error (WolError.invalidHeader _ _) => true
  | _ => false

/-- A well-formed WOL payload: 6 bytes of 0xFF, then a 6-byte MAC repeated
16 times, then arbitrary trailing bytes (password field and padding). -/
def wolPayload (m0 m1 m2 m3 m4 m5 : Byte) (rest : List Byte) : List Byte :=
  List.replicate wolHeaderSize (255 : Byte) ++
    ((List.replicate wolMACRepeats [m0, m1, m2, m3, m4, m5]).flatten ++ rest)

/-- A payload of six zero bytes: shorter than `wolMinSize` and with a
non-0xFF first byte. -/
def pSixZeros : List Byte := List.replicate wolHeaderSize (0 : Byte)

/-- A 102-byte all-0xFF payload (header valid, MAC ff:ff:ff:ff:ff:ff). -/
def pAllFF : List Byte := List.replicate wolMinSize (255 : Byte)

/-- The libvirt domain run states (`libvirt.DOMAIN_*`). -/
inductive DomainState where
  | nostate
  | running
  | blocked
  | paused
  | shutdown
  | shutoff
  | crashed
  | pmsuspended
deriving DecidableEq, Repr

/-- The non-default cases of the `switch state` in `WakeVirtualMachine`
(virtwold.go:152-165): `DOMAIN_SHUTDOWN`, `DOMAIN_SHUTOFF`, `DOMAIN_CRASHED`
("Waking"), `DOMAIN_PMSUSPENDED` ("Unsuspending") and `DOMAIN_PAUSED`
("Resuming") all fall through to `domain.Create()`; every other state takes
the default branch and returns without action. -/
def wakeable : DomainState → Bool
  | DomainState.shutdown => true
  | DomainState.shutoff => true
  | DomainState.crashed => true
  | DomainState.pmsuspended => true
  | DomainState.paused => true
  | _ => false

/-- Snapshot of one configured libvirt domain as `WakeVirtualMachine`
observes it.  `active` is the hypervisor's active/inactive classification
used by `ListAllDomains`; `xmlOk` models whether `GetXMLDesc` and
`Unmarshal` succeed for this domain; `macs` are the
`devices/interface/mac@address` values in interface order; `stateKnown`
models whether `GetState` succeeds, `state` its answer; `createOk` models
whether `domain.Create()` succeeds. -/
structure Domain where
  name : String
  active : Bool
  xmlOk : Bool
  macs : List String
  stateKnown : Bool
  state : DomainState
  createOk : Bool
deriving DecidableEq, Repr

/-- Snapshot of the libvirt control plane for one resolver invocation:
whether `NewConnect` succeeds, whether `ListAllDomains` succeeds, and the
full set of configured domains. -/
structure ControlPlane where
  connectOk : Bool
  listOk : Bool
  domains : List Domain
deriving DecidableEq, Repr

/-- A wake-style call issued to the control plane.  `virtwold.go` only ever
issues `start` (`domain.Create()`); the other two constructors exist so the
absence of `pm-wakeup` and `resume` calls is expressible. -/
inductive WakeCall where
  | start (name : String)
  | pmWakeup (name : String)
  | resume (name : String)
deriving DecidableEq, Repr

/-- Outcome of one `WakeVirtualMachine` invocation.  Error returns of the Go
function: `connectFailed`, `listFailed`, `startFailed`, `noMatch`; nil
returns: `woken` (after a successful `Create`) and `alreadyRunning` (the
default branch of the state switch). -/
inductive WakeOutcome where
  | woken (name : String)
  | alreadyRunning (name : String) (state : DomainState)
  | startFailed (name : String)
  | noMatch (mac : String)
  | connectFailed
  | listFailed
deriving DecidableEq, Repr

/-- The MAC comparison of virtwold.go:140: Go `domainmac == mac`, exact
(case-sensitive) string equality. -/
def macMatches (domainmac mac : String) : Bool := domainmac == mac

/-- The inner loop of `WakeVirtualMachine` (virtwold.go:137-175) over the
interfaces of one domain.  On a MAC match: if `GetState` fails, log and
`continue` with the next interface; if the state is wakeable, issue
`domain.Create()` and return; otherwise return nil (already running).
`none` means the loop ran off the end (continue with the next domain). -/
def scanIfaces (d : Domain) (mac : String) : List String → Option (List WakeCall × WakeOutcome)
  | [] => none
  | domainmac :: restIfaces =>
    if macMatches domainmac mac then
      if d.stateKnown then
        if wakeable d.state then
          some ([WakeCall.start d.name],
            if d.createOk then WakeOutcome.woken d.name else WakeOutcome.startFailed d.name)
        else
          some ([], WakeOutcome.alreadyRunning d.name d.state)
      else
        scanIfaces d mac restIfaces
    else
      scanIfaces d mac restIfaces

/-- The outer loop of `WakeVirtualMachine` (virtwold.go:120-176) over the
enumerated domains.  A domain whose XML retrieval or parse fails is logged
and skipped; falling off the end yields the "no inactive domain found"
error. -/
def scanDomains (mac : String) : List Domain → List WakeCall × WakeOutcome
  | [] => ([], WakeOutcome.noMatch mac)
  | d :: restDoms =>
    if d.xmlOk then
      match scanIfaces d mac d.macs with
      | some r => r
      | none => scanDomains mac restDoms
    else
      scanDomains mac restDoms

/-- The domain list returned by
`connection.ListAllDomains(libvirt.CONNECT_LIST_DOMAINS_INACTIVE)`
(virtwold.go:115): only the inactive domains of the configuration. -/
def examinedDomains (cp : ControlPlane) : List Domain :=
  cp.domains.filter (fun d => !d.active)

/-- Embedding of `WakeVirtualMachine` (virtwold.go:106-179), returning the
list of wake-style calls issued during the invocation together with the
outcome. -/
def WakeVirtualMachine (mac : String) (cp : ControlPlane) : List WakeCall × WakeOutcome :=
  if cp.connectOk then
    if cp.listOk then
      scanDomains mac (examinedDomains cp)
    else
      ([], WakeOutcome.listFailed)
  else
    ([], WakeOutcome.connectFailed)

/-- Which outcomes correspond to a non-nil error return of the Go function. -/
def outcomeIsError : WakeOutcome → Bool
  | WakeOutcome.woken _ => false
  | WakeOutcome.alreadyRunning _ _ => false
  | _ => true

/-- Discriminator: is this outcome the already-running report? -/
def isAlreadyRunningOutcome : WakeOutcome → Bool
  | WakeOutcome.alreadyRunning _ _ => true
  | _ => false

/-- A control plane holding exactly one inactive, fully-responsive domain. -/
def singleCp (name : String) (st : DomainState) (mac : String) (createOk : Bool) :
    ControlPlane :=
  { connectOk := true, listOk := true,
    domains := [{ name := name, active := false, xmlOk := true, macs := [mac],
                  stateKnown := true, state := st, createOk := createOk }] }

/-- A running, active domain configured with MAC aa:bb:cc:dd:ee:ff. -/
def dActiveRunning : Domain :=
  { name := "vm", active := true, xmlOk := true, macs := ["aa:bb:cc:dd:ee:ff"],
    stateKnown := true, state := DomainState.running, createOk := true }

/-- A control plane whose only domain is the active running one. -/
def cpActiveRunning : ControlPlane :=
  { connectOk := true, listOk := true, domains := [dActiveRunning] }

/-- A control plane with one inactive shut-off domain whose configured MAC
is uppercase. -/
def cpUpperMac : ControlPlane :=
  { connectOk := true, listOk := true,
    domains := [{ name := "vm", active := false, xmlOk := true,
                  macs := ["AA:BB:CC:DD:EE:FF"], stateKnown := true,
                  state := DomainState.shutoff, createOk := true }] }

/-- The log lines emitted by one iteration of the packet loop in `main`
(virtwold.go:63-74). -/
inductive LogLine where
  | receivedPacket
  | parseError (e : WolError)
  | wakeError (outcome : WakeOutcome)
deriving DecidableEq, Repr

/-- What the loop body decides about the process: proceed to the next
captured frame, or terminate the process. -/
inductive LoopControl where
  | next
  | exitFatal
deriving DecidableEq, Repr

/-- One iteration of the packet loop of `main` (virtwold.go:63-74): log the
arrival, parse the packet (on error: log a warning and `continue`), wake the
matching VM (on error: log the error); in every case the loop proceeds to
the next frame. -/
def processPacket (cp : ControlPlane) (packet : Option (List Byte)) :
    List LogLine × LoopControl :=
  match GrabMACAddr packet with
  | Except.error e => ([LogLine.receivedPacket, LogLine.parseError e], LoopControl.next)
  | Except.ok mac =>
    let r := WakeVirtualMachine mac cp
    if outcomeIsError r.2 then
      ([LogLine.receivedPacket, LogLine.wakeError r.2], LoopControl.next)
    else
      ([LogLine.receivedPacket], LoopControl.next)

/-- Result of the startup sequence of `main` (virtwold.go:46-58). -/
inductive StartupResult where
  | enterLoop
  | fatalExit
deriving DecidableEq, Repr

/-- The startup sequence of `main`: `deviceExists`, `pcap.OpenLive` and
`SetBPFFilter` each abort the process via `log.Fatalf` on failure; only when
all three succeed does the capture loop start. -/
def mainStartup (deviceOk openOk filterOk : Bool) : StartupResult :=
  if deviceOk then
    if openOk then
      if filterOk then StartupResult.enterLoop else StartupResult.fatalExit
    else
      StartupResult.fatalExit
  else
    StartupResult.fatalExit

theorem length_flatten_replicate (n : Nat) (l : List Byte) :
    ((List.replicate n l).flatten).length = n * l.length := by
  induction n with
  | zero => simp
  | succ k ih => simp [List.replicate_succ, ih, Nat.succ_mul, Nat.add_comm]

theorem wolPayload_length (m0 m1 m2 m3 m4 m5 : Byte) (rest : List Byte) :
    (wolPayload m0 m1 m2 m3 m4 m5 rest).length = wolMinSize + rest.length := by
  rw [wolPayload, List.length_append, List.length_append, List.length_replicate,
    length_flatten_replicate]
  simp only [List.length_cons, List.length_nil, wolHeaderSize, wolMACRepeats, wolMinSize,
    wolMACSize]
  omega

/-- C5: any payload shorter than the 102-byte minimum WOL size is rejected
with the `tooShort` error (and hence no MAC string is returned). -/
theorem claim_c5_too_short :
    wolMinSize = wolHeaderSize + wolMACSize * wolMACRepeats ∧ wolMinSize = 102 ∧
    ∀ payload : List Byte, payload.length < wolMinSize →
      GrabMACAddr (some payload) =
        Except.error (WolError.tooShort payload.length wolMinSize) := by
  refine ⟨rfl, rfl, ?_⟩
  intro payload h
  simp [GrabMACAddr, h]

theorem claim_c5_witness :
    ([] : List Byte).length < wolMinSize ∧
      GrabMACAddr (some ([] : List Byte)) =
        Except.error (WolError.tooShort ([] : List Byte).length wolMinSize) :=
  ⟨by decide, claim_c5_too_short.2.2 [] (by decide)⟩

/-- C8: a well-formed payload — 6 bytes of 0xFF, a 6-byte MAC repeated
16 times, any trailing bytes — yields exactly the MAC of the first
repetition (payload bytes 6..11) formatted as lowercase colon-separated hex;
instantiated at MAC AA:BB:CC:DD:EE:FF the result is "aa:bb:cc:dd:ee:ff". -/
theorem claim_c8_wellformed_extraction :
    (∀ (m0 m1 m2 m3 m4 m5 : Byte) (rest : List Byte),
      GrabMACAddr (some (wolPayload m0 m1 m2 m3 m4 m5 rest)) =
        Except.ok (formatMAC m0 m1 m2 m3 m4 m5)) ∧
    GrabMACAddr (some (wolPayload 0xAA 0xBB 0xCC 0xDD 0xEE 0xFF [])) =
      Except.ok "aa:bb:cc:dd:ee:ff" := by
  constructor
  · intro m0 m1 m2 m3 m4 m5 rest
    have hlen : ¬ (wolPayload m0 m1 m2 m3 m4 m5 rest).length < wolMinSize := by
      rw [wolPayload_length]
      omega
    show GrabMACAddr (some (wolPayload m0 m1 m2 m3 m4 m5 rest)) = _
    simp only [GrabMACAddr]
    rw [if_neg hlen]
    rfl
  · rfl

/-- C10: MAC extraction is memory-safe and total — every byte index it
dereferences is strictly inside the payload, and on every input it returns
either an error or a MAC string. -/
theorem claim_c10_inbounds :
    (∀ (payload : List Byte) (i : Nat),
      i ∈ grabReads (some payload) → i < payload.length) ∧
    (∀ app : Option (List Byte),
      (∃ e, GrabMACAddr app = Except.error e) ∨
      (∃ s, GrabMACAddr app = Except.ok s)) := by
  constructor
  · intro payload i hi
    by_cases hlen : payload.length < wolMinSize
    · simp [grabReads, hlen] at hi
    · have h102 : wolMinSize ≤ payload.length := Nat.not_lt.mp hlen
      have h102' : (102 : Nat) ≤ payload.length := h102
      simp only [grabReads, if_neg hlen] at hi
      cases hf : (List.range wolHeaderSize).find? (fun i => payload.getD i 0 != 255) with
      | some j =>
        rw [hf] at hi
        have hj : j ∈ List.range wolHeaderSize := List.mem_of_find?_eq_some hf
        have hj6 : j < wolHeaderSize := List.mem_range.mp hj
        have hij : i < j + 1 := List.mem_range.mp hi
        have : i < wolHeaderSize := by omega
        have h6 : wolHeaderSize = 6 := rfl
        omega
      | none =>
        rw [hf] at hi
        rcases List.mem_append.mp hi with h | h
        · have : i < wolHeaderSize := List.mem_range.mp h
          have h6 : wolHeaderSize = 6 := rfl
          omega
        · have h6 : wolHeaderSize = 6 := rfl
          rw [h6] at h
          simp only [List.mem_cons, List.not_mem_nil, or_false] at h
          rcases h with h | h | h | h | h | h <;> omega
  · intro app
    match app with
    | none => exact Or.inl ⟨WolError.noPayload, rfl⟩
    | some payload =>
      by_cases hlen : payload.length < wolMinSize
      · exact Or.inl ⟨WolError.tooShort payload.length wolMinSize, by simp [GrabMACAddr, hlen]⟩
      · cases hf : (List.range wolHeaderSize).find? (fun i => payload.getD i 0 != 255) with
        | some j =>
          refine Or.inl ⟨WolError.invalidHeader j (payload.getD j 0), ?_⟩
          simp only [GrabMACAddr]
          rw [if_neg hlen, hf]
        | none =>
          refine Or.inr ⟨formatMAC (payload.getD 6 0) (payload.getD 7 0) (payload.getD 8 0)
            (payload.getD 9 0) (payload.getD 10 0) (payload.getD 11 0), ?_⟩
          simp only [GrabMACAddr]
          rw [if_neg hlen, hf]
          rfl

theorem claim_c10_witness :
    (0 ∈ grabReads (some pAllFF)) ∧ 0 < pAllFF.length :=
  ⟨by decide, claim_c10_inbounds.1 pAllFF 0 (by decide)⟩

/-- C9 counterexample: the six-zero-bytes payload has a first byte that is
not 0xFF, yet extraction fails with `tooShort`, not `invalidHeader` —
the length guard runs before the header check. -/
theorem claim_c9_counterexample :
    pSixZeros.getD 0 0 ≠ (255 : Byte) ∧
    GrabMACAddr (some pSixZeros) =
      Except.error (WolError.tooShort wolHeaderSize wolMinSize) ∧
    isInvalidHeaderError (GrabMACAddr (some pSixZeros)) = false := by
  refine ⟨by decide, rfl, rfl⟩

/-- C9 (amended): for payloads of at least the minimum WOL length,
a header whose first 6 bytes are not all 0xFF makes extraction fail with
`invalidHeader` (shorter payloads fail with `tooShort` instead). -/
theorem claim_c9_invalid_header (payload : List Byte)
    (hlen : wolMinSize ≤ payload.length)
    (hbad : ∃ i, i < wolHeaderSize ∧ payload.getD i 0 ≠ (255 : Byte)) :
    isInvalidHeaderError (GrabMACAddr (some payload)) = true := by
  have hnot : ¬ payload.length < wolMinSize := Nat.not_lt.mpr hlen
  have hsome : ((List.range wolHeaderSize).find?
      (fun i => payload.getD i 0 != 255)).isSome := by
    rw [List.find?_isSome]
    rcases hbad with ⟨i, hi6, hine⟩
    exact ⟨i, List.mem_range.mpr hi6, by simpa [bne_iff_ne] using hine⟩
  rcases Option.isSome_iff_exists.mp hsome with ⟨j, hj⟩
  simp only [GrabMACAddr]
  rw [if_neg hnot, hj]
  rfl

theorem claim_c9_witness :
    (wolMinSize ≤ (List.replicate 102 (0 : Byte)).length ∧
      ∃ i, i < wolHeaderSize ∧ (List.replicate 102 (0 : Byte)).getD i 0 ≠ (255 : Byte)) ∧
    isInvalidHeaderError (GrabMACAddr (some (List.replicate 102 (0 : Byte)))) = true :=
  ⟨⟨by decide, 0, by decide, by decide⟩,
    claim_c9_invalid_header (List.replicate 102 (0 : Byte)) (by decide)
      ⟨0, by decide, by decide⟩⟩

theorem scanIfaces_eq_some (d : Domain) (mac : String) :
    ∀ (l : List String) (r : List WakeCall × WakeOutcome),
      scanIfaces d mac l = some r →
      (d.stateKnown = true ∧ mac ∈ l ∧ wakeable d.state = true ∧
        r = ([WakeCall.start d.name],
          if d.createOk then WakeOutcome.woken d.name else WakeOutcome.startFailed d.name)) ∨
      (d.stateKnown = true ∧ mac ∈ l ∧ wakeable d.state = false ∧
        r = ([], WakeOutcome.alreadyRunning d.name d.state)) := by
  intro l
  induction l with
  | nil => intro r h; simp [scanIfaces] at h
  | cons a l ih =>
    intro r h
    by_cases hm : macMatches a mac = true
    · have ha : a = mac := by simpa [macMatches] using hm
      by_cases hsk : d.stateKnown = true
      · by_cases hw : wakeable d.state = true
        · simp only [scanIfaces, hm, if_true, hsk, hw] at h
          left
          refine ⟨hsk, ?_, hw, ?_⟩
          · exact ha ▸ List.mem_cons_self a l
          · exact (Option.some.inj h).symm
        · simp only [scanIfaces, hm, if_true, hsk, hw] at h
          right
          rw [Bool.not_eq_true] at hw
          refine ⟨hsk, ha ▸ List.mem_cons_self a l, hw, ?_⟩
          simp only [Bool.false_eq_true, if_false] at h
          exact (Option.some.inj h).symm
      · simp only [scanIfaces, hm, if_true, hsk] at h
        rw [Bool.not_eq_true] at hsk
        simp only [hsk, Bool.false_eq_true, if_false] at h
        rcases ih r h with ⟨h1, h2, h3, h4⟩ | ⟨h1, h2, h3, h4⟩
        · exact Or.inl ⟨h1, List.mem_cons_of_mem a h2, h3, h4⟩
        · exact Or.inr ⟨h1, List.mem_cons_of_mem a h2, h3, h4⟩
    · simp only [scanIfaces, hm, Bool.false_eq_true, if_false] at h
      rcases ih r h with ⟨h1, h2, h3, h4⟩ | ⟨h1, h2, h3, h4⟩
      · exact Or.inl ⟨h1, List.mem_cons_of_mem a h2, h3, h4⟩
      · exact Or.inr ⟨h1, List.mem_cons_of_mem a h2, h3, h4⟩

theorem scanIfaces_isSome_iff (d : Domain) (mac : String) (hsk : d.stateKnown = true) :
    ∀ l : List String, (scanIfaces d mac l).isSome = true ↔ mac ∈ l := by
  intro l
  induction l with
  | nil => simp [scanIfaces]
  | cons a l ih =>
    by_cases hm : macMatches a mac = true
    · have ha : a = mac := by simpa [macMatches] using hm
      subst ha
      by_cases hw : wakeable d.state = true
      · simp [scanIfaces, hm, hsk, hw]
      · simp only [Bool.not_eq_true] at hw
        simp [scanIfaces, hm, hsk, hw]
    · have ha : ¬ a = mac := by simpa [macMatches] using hm
      simp only [scanIfaces, hm, Bool.false_eq_true, if_false]
      rw [ih]
      simp only [List.mem_cons]
      constructor
      · exact Or.inr
      · rintro (h | h)
        · exact absurd h.symm ha
        · exact h

theorem scanDomains_characterization (mac : String) :
    ∀ L : List Domain,
      scanDomains mac L = ([], WakeOutcome.noMatch mac) ∨
      ∃ d r, d ∈ L ∧ d.xmlOk = true ∧ scanIfaces d mac d.macs = some r ∧
        scanDomains mac L = r := by
  intro L
  induction L with
  | nil => left; rfl
  | cons d L ih =>
    by_cases hx : d.xmlOk = true
    · cases hscan : scanIfaces d mac d.macs with
      | some r =>
        right
        exact ⟨d, r, List.mem_cons_self d L, hx, hscan,
          by simp [scanDomains, hx, hscan]⟩
      | none =>
        have heq : scanDomains mac (d :: L) = scanDomains mac L := by
          simp [scanDomains, hx, hscan]
        rcases ih with h | ⟨d', r, hd, hxo, hs, he⟩
        · left; rw [heq, h]
        · right; exact ⟨d', r, List.mem_cons_of_mem d hd, hxo, hs, by rw [heq, he]⟩
    · have heq : scanDomains mac (d :: L) = scanDomains mac L := by
        rw [Bool.not_eq_true] at hx
        simp [scanDomains, hx]
      rcases ih with h | ⟨d', r, hd, hxo, hs, he⟩
      · left; rw [heq, h]
      · right; exact ⟨d', r, List.mem_cons_of_mem d hd, hxo, hs, by rw [heq, he]⟩

theorem wake_calls_start_only (cp : ControlPlane) (mac : String) :
    ∀ c ∈ (WakeVirtualMachine mac cp).1, ∃ n, c = WakeCall.start n := by
  intro c hc
  by_cases hco : cp.connectOk = true
  · by_cases hl : cp.listOk = true
    · rw [WakeVirtualMachine, if_pos hco, if_pos hl] at hc
      rcases scanDomains_characterization mac (examinedDomains cp) with h | ⟨d, r, _, _, hs, he⟩
      · rw [h] at hc; simp at hc
      · rw [he] at hc
        rcases scanIfaces_eq_some d mac d.macs r hs with ⟨_, _, _, hr⟩ | ⟨_, _, _, hr⟩
        · rw [hr] at hc
          simp only [List.mem_singleton] at hc
          exact ⟨d.name, hc⟩
        · rw [hr] at hc; simp at hc
    · rw [Bool.not_eq_true] at hl
      rw [WakeVirtualMachine, if_pos hco, hl] at hc
      simp at hc
  · rw [Bool.not_eq_true] at hco
    rw [WakeVirtualMachine, hco] at hc
    simp at hc

/-- C1 counterexample: a matched domain in the PM-Suspended state receives
the `start` call (`domain.Create()`), not the `pm-wakeup` call the claim
requires; no pm-wakeup call is issued at all. -/
theorem claim_c1_counterexample :
    wakeable DomainState.pmsuspended = true ∧
    WakeVirtualMachine "aa:bb:cc:dd:ee:ff"
        (singleCp "vm" DomainState.pmsuspended "aa:bb:cc:dd:ee:ff" true) =
      ([WakeCall.start "vm"], WakeOutcome.woken "vm") ∧
    WakeCall.pmWakeup "vm" ∉
      (WakeVirtualMachine "aa:bb:cc:dd:ee:ff"
        (singleCp "vm" DomainState.pmsuspended "aa:bb:cc:dd:ee:ff" true)).1 := by
  refine ⟨rfl, rfl, ?_⟩
  decide

/-- C1 (amended): the wake action of `virtwold.go` does not discriminate
among wakeable states — every wake-style call issued is a `start`
(`domain.Create()`), and a single matched responsive domain in any wakeable
state (ShutOff, Shutdown, Crashed, PM-Suspended or Paused) receives exactly
the `start` call; no pm-wakeup or resume call is ever issued. -/
theorem claim_c1_amended :
    (∀ (cp : ControlPlane) (mac : String),
      ∀ c ∈ (WakeVirtualMachine mac cp).1, ∃ n, c = WakeCall.start n) ∧
    (∀ (name : String) (st : DomainState) (mac : String) (createOk : Bool),
      wakeable st = true →
      (WakeVirtualMachine mac (singleCp name st mac createOk)).1 =
        [WakeCall.start name]) := by
  constructor
  · exact wake_calls_start_only
  · intro name st mac createOk hw
    simp [WakeVirtualMachine, singleCp, examinedDomains, scanDomains, scanIfaces,
      macMatches, hw]

theorem claim_c1_witness :
    wakeable DomainState.paused = true ∧
    (WakeVirtualMachine "aa:bb:cc:dd:ee:ff"
        (singleCp "vm" DomainState.paused "aa:bb:cc:dd:ee:ff" true)).1 =
      [WakeCall.start "vm"] :=
  ⟨rfl, claim_c1_amended.2 "vm" DomainState.paused "aa:bb:cc:dd:ee:ff" true rfl⟩

/-- C2 counterexample: the target MAC aa:bb:cc:dd:ee:ff and the configured
MAC AA:BB:CC:DD:EE:FF denote the same 6-byte address but do not match —
the comparison of virtwold.go:140 is exact string equality, so the resolver
reports no matching domain. -/
theorem claim_c2_counterexample :
    macMatches "AA:BB:CC:DD:EE:FF" "aa:bb:cc:dd:ee:ff" = false ∧
    WakeVirtualMachine "aa:bb:cc:dd:ee:ff" cpUpperMac =
      ([], WakeOutcome.noMatch "aa:bb:cc:dd:ee:ff") := by
  exact ⟨rfl, rfl⟩

/-- C2 (amended): the MAC comparison of the resolver is exact (case-
sensitive) string equality — a configured MAC matches the target iff the
two strings are identical, and a responsive domain is matched iff the
target string occurs verbatim among its configured MACs. -/
theorem claim_c2_amended :
    (∀ a b : String, macMatches a b = true ↔ a = b) ∧
    (∀ (d : Domain) (mac : String), d.stateKnown = true →
      ((scanIfaces d mac d.macs).isSome = true ↔ mac ∈ d.macs)) := by
  constructor
  · intro a b
    simp [macMatches]
  · intro d mac hsk
    exact scanIfaces_isSome_iff d mac hsk d.macs

theorem claim_c2_witness :
    dActiveRunning.stateKnown = true ∧
    ((scanIfaces dActiveRunning "aa:bb:cc:dd:ee:ff" dActiveRunning.macs).isSome = true ↔
      "aa:bb:cc:dd:ee:ff" ∈ dActiveRunning.macs) :=
  ⟨rfl, claim_c2_amended.2 dActiveRunning "aa:bb:cc:dd:ee:ff" rfl⟩

/-- C3 counterexample: an active domain carrying the target MAC is absent
from the enumeration the resolver examines
(`ListAllDomains(CONNECT_LIST_DOMAINS_INACTIVE)`), and the wake attempt
ends in `noMatch` even though a configured VM carries that MAC. -/
theorem claim_c3_counterexample :
    dActiveRunning ∈ cpActiveRunning.domains ∧
    "aa:bb:cc:dd:ee:ff" ∈ dActiveRunning.macs ∧
    dActiveRunning ∉ examinedDomains cpActiveRunning ∧
    WakeVirtualMachine "aa:bb:cc:dd:ee:ff" cpActiveRunning =
      ([], WakeOutcome.noMatch "aa:bb:cc:dd:ee:ff") := by
  refine ⟨by decide, by decide, by decide, rfl⟩

/-- C3 (amended): the resolver enumerates exactly the inactive domains —
a configured domain is examined iff it is flagged inactive, so every active
domain is excluded from the MAC search. -/
theorem claim_c3_amended (cp : ControlPlane) (d : Domain) :
    d ∈ examinedDomains cp ↔ d ∈ cp.domains ∧ d.active = false := by
  simp [examinedDomains, List.mem_filter]

/-- C4 counterexample: the target MAC matches a configured VM in the
Running state, yet the resolver reports `noMatch` (the running domain is
active, hence never enumerated), not the AlreadyRunning outcome; zero wake
calls are issued. -/
theorem claim_c4_counterexample :
    dActiveRunning.state = DomainState.running ∧
    "aa:bb:cc:dd:ee:ff" ∈ dActiveRunning.macs ∧
    WakeVirtualMachine "aa:bb:cc:dd:ee:ff" cpActiveRunning =
      ([], WakeOutcome.noMatch "aa:bb:cc:dd:ee:ff") ∧
    isAlreadyRunningOutcome
      (WakeVirtualMachine "aa:bb:cc:dd:ee:ff" cpActiveRunning).2 = false := by
  refine ⟨rfl, by decide, rfl, rfl⟩

/-- C4 (amended): when every configured VM carrying the target MAC is in a
non-wakeable (active/running-like) state, the resolver issues zero
wake-style calls; it reports AlreadyRunning only when such a domain appears
in the inactive enumeration, and the no-matching-domain error otherwise. -/
theorem claim_c4_amended (cp : ControlPlane) (mac : String)
    (hco : cp.connectOk = true) (hl : cp.listOk = true)
    (h : ∀ d ∈ cp.domains, mac ∈ d.macs → wakeable d.state = false) :
    (WakeVirtualMachine mac cp).1 = [] ∧
    ((WakeVirtualMachine mac cp).2 = WakeOutcome.noMatch mac ∨
      ∃ n s, (WakeVirtualMachine mac cp).2 = WakeOutcome.alreadyRunning n s ∧
        wakeable s = false) := by
  rw [WakeVirtualMachine, if_pos hco, if_pos hl]
  rcases scanDomains_characterization mac (examinedDomains cp) with hcase | ⟨d, r, hd, _, hs, he⟩
  · rw [hcase]
    exact ⟨rfl, Or.inl rfl⟩
  · have hdc : d ∈ cp.domains := ((claim_c3_amended cp d).mp hd).1
    rcases scanIfaces_eq_some d mac d.macs r hs with ⟨_, hmem, hw, _⟩ | ⟨_, _, hw, hr⟩
    · exact absurd hw (by simp [h d hdc hmem])
    · rw [he, hr]
      exact ⟨rfl, Or.inr ⟨d.name, d.state, rfl, hw⟩⟩

theorem claim_c4_witness :
    (WakeVirtualMachine "aa:bb:cc:dd:ee:ff"
        (singleCp "vm" DomainState.running "aa:bb:cc:dd:ee:ff" true)).1 = [] ∧
    ((WakeVirtualMachine "aa:bb:cc:dd:ee:ff"
        (singleCp "vm" DomainState.running "aa:bb:cc:dd:ee:ff" true)).2 =
      WakeOutcome.noMatch "aa:bb:cc:dd:ee:ff" ∨
      ∃ n s, (WakeVirtualMachine "aa:bb:cc:dd:ee:ff"
          (singleCp "vm" DomainState.running "aa:bb:cc:dd:ee:ff" true)).2 =
        WakeOutcome.alreadyRunning n s ∧ wakeable s = false) :=
  claim_c4_amended (singleCp "vm" DomainState.running "aa:bb:cc:dd:ee:ff" true)
    "aa:bb:cc:dd:ee:ff" rfl rfl (by decide)

/-- C6: every per-event error is recoverable — each loop iteration ends
with `next` (never process termination), parse failures and wake failures
are logged, and the process terminates fatally exactly when one of the
three startup steps (device lookup, capture open, filter install) fails. -/
theorem claim_c6_loop_continues :
    (∀ (cp : ControlPlane) (packet : Option (List Byte)),
      (processPacket cp packet).2 = LoopControl.next ∧
      (∀ e, GrabMACAddr packet = Except.error e →
        LogLine.parseError e ∈ (processPacket cp packet).1) ∧
      (∀ mac, GrabMACAddr packet = Except.ok mac →
        outcomeIsError (WakeVirtualMachine mac cp).2 = true →
        LogLine.wakeError (WakeVirtualMachine mac cp).2 ∈ (processPacket cp packet).1)) ∧
    (∀ deviceOk openOk filterOk : Bool,
      mainStartup deviceOk openOk filterOk = StartupResult.fatalExit ↔
        (deviceOk = false ∨ openOk = false ∨ filterOk = false)) := by
  constructor
  · intro cp packet
    refine ⟨?_, ?_, ?_⟩
    · cases h : GrabMACAddr packet with
      | error e => simp [processPacket, h]
      | ok mac =>
        by_cases he : outcomeIsError (WakeVirtualMachine mac cp).2 = true
        · simp [processPacket, h, he]
        · rw [Bool.not_eq_true] at he
          simp [processPacket, h, he]
    · intro e he
      simp [processPacket, he]
    · intro mac hmac herr
      simp [processPacket, hmac, herr]
  · intro deviceOk openOk filterOk
    cases deviceOk <;> cases openOk <;> cases filterOk <;> simp [mainStartup]

theorem claim_c6_witness :
    GrabMACAddr (none : Option (List Byte)) = Except.error WolError.noPayload ∧
    LogLine.parseError WolError.noPayload ∈ (processPacket cpActiveRunning none).1 ∧
    (processPacket cpActiveRunning none).2 = LoopControl.next :=
  ⟨rfl, (claim_c6_loop_continues.1 cpActiveRunning none).2.1 WolError.noPayload rfl,
    (claim_c6_loop_continues.1 cpActiveRunning none).1⟩

/-- C7: one resolver invocation issues at most one wake-style call, and a
call is issued only when some examined domain is responsive, carries the
target MAC and is in a wakeable state. -/
theorem claim_c7_at_most_one_wake (cp : ControlPlane) (mac : String) :
    (WakeVirtualMachine mac cp).1.length ≤ 1 ∧
    ((WakeVirtualMachine mac cp).1 ≠ [] →
      ∃ d, d ∈ examinedDomains cp ∧ d.xmlOk = true ∧ d.stateKnown = true ∧
        wakeable d.state = true ∧ mac ∈ d.macs) := by
  by_cases hco : cp.connectOk = true
  · by_cases hl : cp.listOk = true
    · rw [WakeVirtualMachine, if_pos hco, if_pos hl]
      rcases scanDomains_characterization mac (examinedDomains cp) with
        hcase | ⟨d, r, hd, hx, hs, he⟩
      · rw [hcase]
        exact ⟨by simp, by simp⟩
      · rw [he]
        rcases scanIfaces_eq_some d mac d.macs r hs with
          ⟨hsk, hmem, hw, hr⟩ | ⟨_, _, _, hr⟩
        · rw [hr]
          exact ⟨by simp, fun _ => ⟨d, hd, hx, hsk, hw, hmem⟩⟩
        · rw [hr]
          exact ⟨by simp, by simp⟩
    · rw [Bool.not_eq_true] at hl
      rw [WakeVirtualMachine, if_pos hco, hl]
      exact ⟨by simp, by simp⟩
  · rw [Bool.not_eq_true] at hco
    rw [WakeVirtualMachine, hco]
    exact ⟨by simp, by simp⟩

theorem claim_c7_witness :
    (WakeVirtualMachine "aa:bb:cc:dd:ee:ff"
        (singleCp "vm" DomainState.shutoff "aa:bb:cc:dd:ee:ff" true)).1 ≠ [] ∧
    ∃ d, d ∈ examinedDomains
        (singleCp "vm" DomainState.shutoff "aa:bb:cc:dd:ee:ff" true) ∧
      d.xmlOk = true ∧ d.stateKnown = true ∧ wakeable d.state = true ∧
      "aa:bb:cc:dd:ee:ff" ∈ d.macs :=
  ⟨by decide,
    (claim_c7_at_most_one_wake
      (singleCp "vm" DomainState.shutoff "aa:bb:cc:dd:ee:ff" true)
      "aa:bb:cc:dd:ee:ff").2 (by decide)⟩

end Virtwold
